import Mathlib

/-!
Shallow embedding of the WeatherRecorder application (src/weather.py):
the serial poller's line handling (ArduinoInterface.run), the command
channel (ArduinoInterface.send_command), and the recording controller
(WeatherGUI.start_recording / stop_recording / update_display), together
with the timestamp-derived CSV filename convention.
-/

namespace WeatherRecorder

/-- A sample emitted by the poller: `[status, temp, hum, pres]`.
Numeric fields are modelled as rationals (the values Python's float
parser produces on the telemetry lines). -/
structure Sample where
  status : String
  temp : Rat
  hum : Rat
  pres : Rat
deriving DecidableEq

/-- Splitting a character list at every comma, the semantics of Python's
`str.split(',')`: the empty string yields one empty field, and every
comma starts a new field. -/
def splitFields : List Char → List (List Char)
  | [] => [[]]
  | ch :: rest =>
    let r := splitFields rest
    if ch = ',' then [] :: r
    else
      match r with
      | f :: fs => (ch :: f) :: fs
      | [] => [[ch]]

/-- `line.split(',')` from ArduinoInterface.run line 38. -/
def pySplit (s : String) : List String :=
  (splitFields s.data).map String.mk

/-- One iteration of the poller's line handling (ArduinoInterface.run,
lines 38-47), parametric in the numeric parser `pf` standing for
Python's `float`: a line with exactly 4 comma-separated fields yields a
clean sample when fields 2-4 all parse, the sentinel sample
`[status, -1, -1, -1]` when any of them raises ValueError, and any
other field count yields no emission. -/
def processLine (pf : String → Option Rat) (line : String) : Option Sample :=
  match pySplit line with
  | [s, a, b, c] =>
    match pf a, pf b, pf c with
    | some x, some y, some z => some ⟨s, x, y, z⟩
    | _, _, _ => some ⟨s, -1, -1, -1⟩
  | _ => none

/-- Value of a digit string, most significant first. -/
def natOfDigits (cs : List Char) : Nat :=
  cs.foldl (fun acc ch => acc * 10 + (ch.toNat - 48)) 0

/-- Model of Python's `float` restricted to optionally signed plain
decimal literals (the forms the device emits); used to instantiate the
abstract numeric parser on concrete inputs. -/
def parseDecimal (s : String) : Option Rat :=
  let signBody : Rat × List Char :=
    match s.data with
    | '-' :: rest => (-1, rest)
    | '+' :: rest => (1, rest)
    | cs => (1, cs)
  let intDigits := signBody.2.takeWhile Char.isDigit
  let rest := signBody.2.dropWhile Char.isDigit
  match rest with
  | [] =>
    if intDigits.isEmpty then none
    else some (signBody.1 * (natOfDigits intDigits : Rat))
  | '.' :: fracDigits =>
    if fracDigits.all Char.isDigit && !(intDigits.isEmpty && fracDigits.isEmpty) then
      some (signBody.1 * ((natOfDigits intDigits : Rat) +
        (natOfDigits fracDigits : Rat) / ((10 : Rat) ^ fracDigits.length)))
    else none
  | _ => none

/-- A CSV cell: either a string (timestamps, header labels) or a
numeric sample value, as passed to `csv_writer.writerow`. -/
abbrev Cell := String ⊕ Rat

/-- A CSV row as written by one `writerow` call. -/
abbrev Row := List Cell

/-- The fixed header row written on recording start
(WeatherGUI.start_recording line 303). -/
def headerRow : Row :=
  [Sum.inl "Timestamp", Sum.inl "Temperature_C", Sum.inl "Humidity_Pct", Sum.inl "Pressure_hPa"]

/-- The data row `[current_time, data[1], data[2], data[3]]` written per
sample (WeatherGUI.update_display line 292). -/
def dataRow (ts : String) (data : Sample) : Row :=
  [Sum.inl ts, Sum.inr data.temp, Sum.inr data.hum, Sum.inr data.pres]

/-- The worker's serial connection `self.ser`: its `is_open` flag and the
command strings written to it so far. -/
structure SerialConn where
  isOpen : Bool
  written : List String
deriving DecidableEq

/-- ArduinoInterface.send_command (lines 55-57): writes the command only
when a serial handle exists and is open, otherwise does nothing. -/
def sendCommand (conn : Option SerialConn) (command : String) : Option SerialConn :=
  match conn with
  | none => none
  | some c =>
    if c.isOpen then some { c with written := c.written ++ [command] } else some c

/-- An open CSV sink `self.csv_file`: the timestamp-derived name it was
opened under (the configured directory is fixed for the whole run) and
the rows written to it so far. -/
structure Handle where
  path : String
  rows : List Row
deriving DecidableEq

/-- A wall-clock timestamp as delivered by `time.strftime`. -/
structure Timestamp where
  year : Nat
  month : Nat
  day : Nat
  hour : Nat
  minute : Nat
  second : Nat
deriving DecidableEq

/-- Zero-padded decimal rendering of `n` to exactly `k` digits, the
semantics of the zero-padded `strftime` fields. -/
def padDigits : Nat → Nat → List Char
  | 0, _ => []
  | k + 1, n => Char.ofNat (48 + n / 10 ^ k) :: padDigits k (n % 10 ^ k)

/-- The characters of `time.strftime('%Y%m%d_%H%M%S')`. -/
def timestampChars (t : Timestamp) : List Char :=
  padDigits 4 t.year ++ padDigits 2 t.month ++ padDigits 2 t.day ++ ['_'] ++
    padDigits 2 t.hour ++ padDigits 2 t.minute ++ padDigits 2 t.second

/-- The recording filename built in WeatherGUI.start_recording line 295:
the strftime timestamp followed by `_weather.csv`. -/
def recordingFilename (t : Timestamp) : String :=
  String.mk (timestampChars t ++ "_weather.csv".data)

/-- An uncaught Python exception escaping a handler. -/
inductive PyError where
  | attributeError : String → PyError
  | ioError : String → PyError
deriving DecidableEq

/-- Environment a start_recording invocation runs in: the current wall
clock, whether the output directory exists, and whether opening the sink
or writing the header raises (with the exception's message). -/
structure FsEnv where
  now : Timestamp
  dirExists : Bool
  openError : Option String
  headerWriteError : Option String
deriving DecidableEq

/-- The controller state carried by WeatherGUI: recording flag, open
sink, writer, status label text, button enabled flags, the worker's
serial handle, the error messages shown via show_error, the closed CSV
files, and the displayed time/values. -/
structure GuiState where
  recording : Bool
  csvFile : Option Handle
  csvWriterSet : Bool
  statusText : String
  recordBtnEnabled : Bool
  stopBtnEnabled : Bool
  conn : Option SerialConn
  errors : List String
  closedFiles : List Handle
  timeText : String
  shown : Option (Rat × Rat × Rat)
deriving DecidableEq

/-- The state after WeatherGUI.__init__ and setup_ui: not recording, no
sink, status label `Not Recording`, Record enabled, Stop disabled. -/
def initState (conn : Option SerialConn) : GuiState where
  recording := false
  csvFile := none
  csvWriterSet := false
  statusText := "Not Recording"
  recordBtnEnabled := true
  stopBtnEnabled := false
  conn := conn
  errors := []
  closedFiles := []
  timeText := "Time: --"
  shown := none

/-- WeatherGUI.start_recording (lines 294-313), step by step. If the
output directory is missing, line 298 calls `os.make_dirs`, a name the
`os` module does not define, so an AttributeError escapes before
anything else happens. Otherwise the sink is opened and the header
written inside try/except: a failure of either is shown via show_error
and the method returns (an open handle acquired before the failure stays
assigned). On success the start command `'1'` is sent, the recording
flag and status label are set, and then line 312 accesses
`self.btn_record` — the button field is named `record_btn` — so an
AttributeError escapes after the state changes took effect. -/
def startRecording (env : FsEnv) (st : GuiState) : GuiState × Option PyError :=
  let filename := recordingFilename env.now
  if !env.dirExists then
    (st, some (PyError.attributeError "make_dirs"))
  else
    match env.openError with
    | some msg =>
      ({ st with errors := st.errors ++ ["Could not create file: " ++ msg] }, none)
    | none =>
      let st1 := { st with csvFile := some ⟨filename, []⟩, csvWriterSet := true }
      match env.headerWriteError with
      | some msg =>
        ({ st1 with errors := st1.errors ++ ["Could not create file: " ++ msg] }, none)
      | none =>
        let st2 := { st1 with csvFile := some ⟨filename, [headerRow]⟩ }
        let st3 := { st2 with conn := sendCommand st2.conn "1" }
        let st4 := { st3 with recording := true, statusText := "Recording to: " ++ filename }
        (st4, some (PyError.attributeError "btn_record"))

/-- WeatherGUI.stop_recording (lines 315-326): sends `'0'`, closes the
sink if one is open and clears the handle and writer, clears the
recording flag and resets the status label; then line 325 accesses
`self.btn_record`, which does not exist, so an AttributeError escapes
after the state changes took effect. -/
def stopRecording (st : GuiState) : GuiState × Option PyError :=
  let st1 := { st with conn := sendCommand st.conn "0" }
  let st2 :=
    match st1.csvFile with
    | some h =>
      { st1 with closedFiles := st1.closedFiles ++ [h], csvFile := none, csvWriterSet := false }
    | none => st1
  let st3 := { st2 with recording := false, statusText := "Not Recording" }
  (st3, some (PyError.attributeError "btn_record"))

/-- WeatherGUI.update_display (lines 277-292): refreshes the displayed
time and values, then, when the recording flag is set and a writer
exists, appends the row `[current_time, temp, hum, pres]` to the sink. -/
def updateDisplay (ts : String) (data : Sample) (st : GuiState) : GuiState :=
  let st1 := { st with timeText := "Time: " ++ ts,
                       shown := some (data.temp, data.hum, data.pres) }
  if st1.recording && st1.csvWriterSet then
    { st1 with csvFile := st1.csvFile.map (fun h => { h with rows := h.rows ++ [dataRow ts data] }) }
  else st1

/-- Delivering a list of (timestamp, sample) pairs to update_display in
arrival order. -/
def feedSamples (samples : List (String × Sample)) (st : GuiState) : GuiState :=
  samples.foldl (fun s p => updateDisplay p.1 p.2 s) st

/-- Field bounds under which each strftime field fits its zero-padded
width (true of every real wall-clock time). -/
def inRange (t : Timestamp) : Prop :=
  t.year < 10000 ∧ t.month < 100 ∧ t.day < 100 ∧
    t.hour < 100 ∧ t.minute < 100 ∧ t.second < 100

/-- Chronological (field-lexicographic) order on timestamps. -/
def chronoLt (t1 t2 : Timestamp) : Prop :=
  t1.year < t2.year ∨ (t1.year = t2.year ∧
    (t1.month < t2.month ∨ (t1.month = t2.month ∧
      (t1.day < t2.day ∨ (t1.day = t2.day ∧
        (t1.hour < t2.hour ∨ (t1.hour = t2.hour ∧
          (t1.minute < t2.minute ∨ (t1.minute = t2.minute ∧
            t1.second < t2.second)))))))))

end WeatherRecorder

namespace WeatherRecorder

/-- C1: a 4-field line whose fields 2-4 all parse emits exactly the
clean sample with the original status and the parsed values. -/
theorem poller_emits_valid_sample (pf : String → Option Rat) (line s a b c : String)
    (x y z : Rat) (hsplit : pySplit line = [s, a, b, c])
    (ha : pf a = some x) (hb : pf b = some y) (hc : pf c = some z) :
    processLine pf line = some ⟨s, x, y, z⟩ := by
  unfold processLine
  rw [hsplit]
  simp only [ha, hb, hc]

/-- Witness for C1 at the spec's example line. -/
theorem poller_emits_valid_sample_witness :
    processLine parseDecimal "OK,23.50,45.10,1013.25" =
      some ⟨"OK", 47 / 2, 451 / 10, 4053 / 4⟩ :=
  poller_emits_valid_sample parseDecimal "OK,23.50,45.10,1013.25"
    "OK" "23.50" "45.10" "1013.25" (47 / 2) (451 / 10) (4053 / 4)
    (by decide)
    (by simp [parseDecimal, natOfDigits]; norm_num)
    (by simp [parseDecimal, natOfDigits]; norm_num)
    (by simp [parseDecimal, natOfDigits]; norm_num)

/-- C2: a 4-field line where some numeric field fails to parse emits
exactly the degraded sentinel sample, preserving the status field. -/
theorem poller_emits_sentinel_sample (pf : String → Option Rat) (line s a b c : String)
    (hsplit : pySplit line = [s, a, b, c])
    (hbad : pf a = none ∨ pf b = none ∨ pf c = none) :
    processLine pf line = some ⟨s, -1, -1, -1⟩ := by
  unfold processLine
  rw [hsplit]
  rcases hA : pf a with _ | x <;> rcases hB : pf b with _ | y <;>
    rcases hC : pf c with _ | z <;> simp_all

/-- Witness for C2 at the spec's example malformed line. -/
theorem poller_emits_sentinel_sample_witness :
    processLine parseDecimal "OK,bad,45.10,1013.25" = some ⟨"OK", -1, -1, -1⟩ :=
  poller_emits_sentinel_sample parseDecimal "OK,bad,45.10,1013.25"
    "OK" "bad" "45.10" "1013.25" (by decide) (Or.inl (by decide))

/-- C8: a line that does not split into exactly 4 comma-separated
fields emits nothing. -/
theorem poller_drops_wrong_field_count (pf : String → Option Rat) (line : String)
    (h : (pySplit line).length ≠ 4) :
    processLine pf line = none := by
  unfold processLine
  rcases hl : pySplit line with _ | ⟨s, _ | ⟨a, _ | ⟨b, _ | ⟨c, _ | ⟨d, rest⟩⟩⟩⟩⟩ <;>
    simp_all

/-- Witness for C8 on a 3-field line. -/
theorem poller_drops_wrong_field_count_witness :
    processLine parseDecimal "OK,23.50,45.10" = none :=
  poller_drops_wrong_field_count parseDecimal "OK,23.50,45.10" (by decide)

/-- update_display leaves the recording flag unchanged. -/
theorem updateDisplay_recording (ts : String) (d : Sample) (st : GuiState) :
    (updateDisplay ts d st).recording = st.recording := by
  simp only [updateDisplay]
  split <;> rfl

/-- update_display leaves the writer flag unchanged. -/
theorem updateDisplay_csvWriterSet (ts : String) (d : Sample) (st : GuiState) :
    (updateDisplay ts d st).csvWriterSet = st.csvWriterSet := by
  simp only [updateDisplay]
  split <;> rfl

/-- While the recording flag is set and a writer exists, update_display
appends exactly one data row to the open sink. -/
theorem updateDisplay_csvFile_rec (ts : String) (d : Sample) (st : GuiState)
    (p : String) (rows : List Row)
    (hrec : st.recording = true) (hw : st.csvWriterSet = true)
    (hf : st.csvFile = some ⟨p, rows⟩) :
    (updateDisplay ts d st).csvFile = some ⟨p, rows ++ [dataRow ts d]⟩ := by
  simp [updateDisplay, hrec, hw, hf]

/-- Feeding samples in order appends one row per sample to the sink. -/
theorem feedSamples_csvFile (samples : List (String × Sample)) (st : GuiState)
    (p : String) (rows : List Row)
    (hrec : st.recording = true) (hw : st.csvWriterSet = true)
    (hf : st.csvFile = some ⟨p, rows⟩) :
    (feedSamples samples st).csvFile =
      some ⟨p, rows ++ samples.map (fun q => dataRow q.1 q.2)⟩ := by
  induction samples generalizing st rows with
  | nil => simpa [feedSamples] using hf
  | cons q qs ih =>
    have h1 := updateDisplay_csvFile_rec q.1 q.2 st p rows hrec hw hf
    have h2 := ih (updateDisplay q.1 q.2 st) (rows ++ [dataRow q.1 q.2])
      (by rw [updateDisplay_recording]; exact hrec)
      (by rw [updateDisplay_csvWriterSet]; exact hw) h1
    show (feedSamples qs (updateDisplay q.1 q.2 st)).csvFile = _
    rw [h2]
    simp

/-- On a successful start, start_recording opens the sink under the
timestamp filename with the header written, and sets the flags. -/
theorem startRecording_success_state (env : FsEnv) (st : GuiState)
    (hdir : env.dirExists = true) (hopen : env.openError = none)
    (hhdr : env.headerWriteError = none) :
    (startRecording env st).1.recording = true ∧
    (startRecording env st).1.csvWriterSet = true ∧
    (startRecording env st).1.csvFile = some ⟨recordingFilename env.now, [headerRow]⟩ := by
  refine ⟨?_, ?_, ?_⟩ <;> simp [startRecording, hdir, hopen, hhdr]

/-- C3: starting a recording and then delivering N samples yields a sink
holding exactly the fixed header row followed by one data row per sample
in arrival order, each carrying the sample's values as given. -/
theorem recording_writes_header_then_samples (env : FsEnv) (st : GuiState)
    (samples : List (String × Sample))
    (hdir : env.dirExists = true) (hopen : env.openError = none)
    (hhdr : env.headerWriteError = none) :
    (feedSamples samples (startRecording env st).1).csvFile =
      some ⟨recordingFilename env.now,
        headerRow :: samples.map (fun q => dataRow q.1 q.2)⟩ := by
  obtain ⟨h1, h2, h3⟩ := startRecording_success_state env st hdir hopen hhdr
  have := feedSamples_csvFile samples (startRecording env st).1
    (recordingFilename env.now) [headerRow] h1 h2 h3
  simpa using this

/-- Witness for C3 with two concrete samples. -/
theorem recording_writes_header_then_samples_witness :
    (feedSamples [("2024-05-06 07:08:09", ⟨"OK", 1, 2, 3⟩), ("2024-05-06 07:08:10", ⟨"OK", 4, 5, 6⟩)]
        (startRecording ⟨⟨2024, 5, 6, 7, 8, 9⟩, true, none, none⟩ (initState none)).1).csvFile =
      some ⟨recordingFilename ⟨2024, 5, 6, 7, 8, 9⟩,
        headerRow :: [("2024-05-06 07:08:09", (⟨"OK", 1, 2, 3⟩ : Sample)),
          ("2024-05-06 07:08:10", (⟨"OK", 4, 5, 6⟩ : Sample))].map (fun q => dataRow q.1 q.2)⟩ :=
  recording_writes_header_then_samples ⟨⟨2024, 5, 6, 7, 8, 9⟩, true, none, none⟩
    (initState none) _ rfl rfl rfl

/-- C4 counterexample: when the sink opens but the header write fails,
the open handle and the writer stay assigned — partial state remains. -/
theorem start_header_failure_retains_handle :
    (startRecording ⟨⟨2024, 1, 2, 3, 4, 5⟩, true, none, some "disk full"⟩
        (initState none)).1.csvFile ≠ none ∧
    (startRecording ⟨⟨2024, 1, 2, 3, 4, 5⟩, true, none, some "disk full"⟩
        (initState none)).1.csvWriterSet = true := by
  decide

/-- C4 amended: a failure to open the sink is shown to the user and the
state is unchanged apart from the recorded error message — still Idle,
no handle, no writer, no command sent, no exception; a failure to write
the header is likewise shown, the recording flag stays false and no
start command is sent, but the freshly opened handle and the writer
remain assigned. -/
theorem start_sink_failure_aborts (env : FsEnv) (st : GuiState) (msg : String)
    (hdir : env.dirExists = true) :
    (env.openError = some msg →
      startRecording env st =
        ({ st with errors := st.errors ++ ["Could not create file: " ++ msg] }, none)) ∧
    (env.openError = none → env.headerWriteError = some msg →
      startRecording env st =
        ({ st with csvFile := some ⟨recordingFilename env.now, []⟩, csvWriterSet := true,
                   errors := st.errors ++ ["Could not create file: " ++ msg] }, none)) := by
  constructor
  · intro h
    simp [startRecording, hdir, h]
  · intro h1 h2
    simp [startRecording, hdir, h1, h2]

/-- Witness for C4 amended on the open-failure path from Idle. -/
theorem start_sink_failure_aborts_witness :
    startRecording ⟨⟨2024, 1, 2, 3, 4, 5⟩, true, some "no space", none⟩ (initState none) =
      ({ initState none with errors := ["Could not create file: no space"] }, none) :=
  (start_sink_failure_aborts ⟨⟨2024, 1, 2, 3, 4, 5⟩, true, some "no space", none⟩
    (initState none) "no space" rfl).1 rfl

/-- C5: when the output directory is absent, start_recording does not
create it — line 298 calls os.make_dirs, which the os module does not
define, so an AttributeError escapes: no directory is created, no sink
is opened, no header is written, no command is sent, and the state is
untouched. -/
theorem start_missing_dir_uncaught_error (env : FsEnv) (st : GuiState)
    (h : env.dirExists = false) :
    startRecording env st = (st, some (PyError.attributeError "make_dirs")) := by
  simp [startRecording, h]

/-- Witness for C5 at a concrete environment and the initial state. -/
theorem start_missing_dir_uncaught_error_witness :
    startRecording ⟨⟨2024, 1, 2, 3, 4, 5⟩, false, none, none⟩ (initState none) =
      (initState none, some (PyError.attributeError "make_dirs")) :=
  start_missing_dir_uncaught_error ⟨⟨2024, 1, 2, 3, 4, 5⟩, false, none, none⟩
    (initState none) rfl

/-- C7: neither handler ever toggles the buttons — both access
self.btn_record / self.btn_stop while the buttons are stored as
record_btn / stop_btn, so an AttributeError escapes first and the
enabled flags keep their previous values. -/
theorem buttons_never_toggled (env : FsEnv) (st : GuiState)
    (hdir : env.dirExists = true) (hopen : env.openError = none)
    (hhdr : env.headerWriteError = none) :
    ((startRecording env st).1.recordBtnEnabled = st.recordBtnEnabled ∧
      (startRecording env st).1.stopBtnEnabled = st.stopBtnEnabled ∧
      (startRecording env st).2 = some (PyError.attributeError "btn_record")) ∧
    ((stopRecording st).1.recordBtnEnabled = st.recordBtnEnabled ∧
      (stopRecording st).1.stopBtnEnabled = st.stopBtnEnabled ∧
      (stopRecording st).2 = some (PyError.attributeError "btn_record")) := by
  cases hcf : st.csvFile <;>
    refine ⟨⟨?_, ?_, ?_⟩, ⟨?_, ?_, ?_⟩⟩ <;>
      simp [startRecording, stopRecording, hdir, hopen, hhdr, hcf]

/-- Witness for C7 from the initial state. -/
theorem buttons_never_toggled_witness :
    ((startRecording ⟨⟨2024, 1, 2, 3, 4, 5⟩, true, none, none⟩
        (initState none)).1.recordBtnEnabled = true ∧
      (startRecording ⟨⟨2024, 1, 2, 3, 4, 5⟩, true, none, none⟩
        (initState none)).1.stopBtnEnabled = false ∧
      (startRecording ⟨⟨2024, 1, 2, 3, 4, 5⟩, true, none, none⟩
        (initState none)).2 = some (PyError.attributeError "btn_record")) ∧
    ((stopRecording (initState none)).1.recordBtnEnabled = true ∧
      (stopRecording (initState none)).1.stopBtnEnabled = false ∧
      (stopRecording (initState none)).2 = some (PyError.attributeError "btn_record")) :=
  buttons_never_toggled ⟨⟨2024, 1, 2, 3, 4, 5⟩, true, none, none⟩ (initState none)
    rfl rfl rfl

/-- C9: with no serial handle, or a handle that is not open,
send_command writes nothing and raises nothing — the handle is returned
untouched; and the recording-state transitions of start_recording and
stop_recording go through regardless of the connection. -/
theorem send_command_noop_without_connection (cmd : String) (conn : Option SerialConn)
    (h : conn = none ∨ ∀ c, conn = some c → c.isOpen = false) :
    sendCommand conn cmd = conn ∧
    (∀ env st, env.dirExists = true → env.openError = none →
      env.headerWriteError = none → (startRecording env st).1.recording = true) ∧
    (∀ st, (stopRecording st).1.recording = false) := by
  refine ⟨?_, ?_, ?_⟩
  · rcases h with h | h
    · subst h; rfl
    · cases hc : conn with
      | none => rfl
      | some c => simp [sendCommand, h c hc]
  · intro env st hdir hopen hhdr
    simp [startRecording, hdir, hopen, hhdr]
  · intro st
    cases hcf : st.csvFile <;> simp [stopRecording, hcf]

/-- Witness for C9 with no serial handle at all. -/
theorem send_command_noop_without_connection_witness :
    sendCommand none "1" = none :=
  (send_command_noop_without_connection "1" none (Or.inl rfl)).1

/-- Digit characters compare like the digits they render. -/
theorem digitChar_lt_digitChar (d e : Nat) (hd : d < 10) (he : e < 10) (h : d < e) :
    Char.ofNat (48 + d) < Char.ofNat (48 + e) := by
  have key : ∀ p : Fin 10, ∀ q : Fin 10, p.val < q.val →
      Char.ofNat (48 + p.val) < Char.ofNat (48 + q.val) := by decide
  exact key ⟨d, hd⟩ ⟨e, he⟩ h

/-- padDigits always renders exactly `k` characters. -/
theorem padDigits_length (k n : Nat) : (padDigits k n).length = k := by
  induction k generalizing n with
  | zero => rfl
  | succ k ih => simp [padDigits, ih]

/-- Zero-padded renderings of equal width compare lexicographically the
way the numbers compare. -/
theorem padDigits_lt_padDigits (k n m : Nat) (hn : n < 10 ^ k) (hm : m < 10 ^ k)
    (h : n < m) : padDigits k n < padDigits k m := by
  induction k generalizing n m with
  | zero =>
    simp only [pow_zero] at hn hm
    omega
  | succ k ih =>
    have hpow : 0 < 10 ^ k := pow_pos (by norm_num) k
    have hdn : n / 10 ^ k < 10 := Nat.div_lt_of_lt_mul (by rw [← pow_succ]; exact hn)
    have hdm : m / 10 ^ k < 10 := Nat.div_lt_of_lt_mul (by rw [← pow_succ]; exact hm)
    simp only [padDigits]
    by_cases hq : n / 10 ^ k < m / 10 ^ k
    · exact List.Lex.rel (digitChar_lt_digitChar _ _ hdn hdm hq)
    · have hqe : n / 10 ^ k = m / 10 ^ k :=
        Nat.le_antisymm (Nat.div_le_div_right h.le) (Nat.le_of_not_lt hq)
      rw [hqe]
      have e1 := Nat.div_add_mod n (10 ^ k)
      have e2 := Nat.div_add_mod m (10 ^ k)
      rw [hqe] at e1
      have hmod : n % 10 ^ k < m % 10 ^ k := by omega
      exact List.Lex.cons (ih _ _ (Nat.mod_lt n hpow) (Nat.mod_lt m hpow) hmod)

/-- A shared prefix preserves strict lexicographic order. -/
theorem lex_append_left (p xs ys : List Char) (h : xs < ys) : p ++ xs < p ++ ys := by
  induction p with
  | nil => exact h
  | cons a p ih => exact List.Lex.cons ih

/-- Strict order on equal-length blocks decides the order of any
continuations. -/
theorem lex_append_congr (xs ys r s : List Char) (hlen : xs.length = ys.length)
    (h : xs < ys) : xs ++ r < ys ++ s := by
  have h' : List.Lex (· < ·) xs ys := h
  clear h
  revert hlen
  induction h' with
  | nil => intro hlen; simp at hlen
  | rel hab => intro _; exact List.Lex.rel hab
  | cons _ ih => intro hlen; exact List.Lex.cons (ih (by simpa using hlen))

/-- C6 counterexample: stopping and then starting again within the same
clock second reuses the identical filename — the second recording's name
equals the file just closed, so it is neither distinct nor later. -/
theorem same_second_restart_same_name :
    (stopRecording (startRecording ⟨⟨2024, 1, 2, 3, 4, 5⟩, true, none, none⟩
        (initState none)).1).1.closedFiles.map Handle.path =
      [recordingFilename ⟨2024, 1, 2, 3, 4, 5⟩] ∧
    ((startRecording ⟨⟨2024, 1, 2, 3, 4, 5⟩, true, none, none⟩
        (stopRecording (startRecording ⟨⟨2024, 1, 2, 3, 4, 5⟩, true, none, none⟩
          (initState none)).1).1).1.csvFile.map Handle.path) =
      some (recordingFilename ⟨2024, 1, 2, 3, 4, 5⟩) := by
  decide

/-- C6 amended: when the second start happens at a strictly later
wall-clock second, the new timestamp-derived filename is distinct from
and lexicographically later than the previous one; a restart within the
same second reuses the identical name. -/
theorem restart_strictly_later_new_name (t1 t2 : Timestamp)
    (h1 : inRange t1) (h2 : inRange t2) (hlt : chronoLt t1 t2) :
    recordingFilename t1 ≠ recordingFilename t2 ∧
      recordingFilename t1 < recordingFilename t2 := by
  obtain ⟨hy1, hmo1, hd1, hh1, hmi1, hs1⟩ := h1
  obtain ⟨hy2, hmo2, hd2, hh2, hmi2, hs2⟩ := h2
  have key : recordingFilename t1 < recordingFilename t2 := by
    rw [String.lt_iff_toList_lt]
    show timestampChars t1 ++ "_weather.csv".data < timestampChars t2 ++ "_weather.csv".data
    simp only [timestampChars, List.append_assoc]
    rcases hlt with hy | ⟨hy, hlt2⟩
    · exact lex_append_congr _ _ _ _ (by simp [padDigits_length])
        (padDigits_lt_padDigits 4 _ _ hy1 hy2 hy)
    · rw [hy]
      apply lex_append_left
      rcases hlt2 with hmo | ⟨hmo, hlt3⟩
      · exact lex_append_congr _ _ _ _ (by simp [padDigits_length])
          (padDigits_lt_padDigits 2 _ _ hmo1 hmo2 hmo)
      · rw [hmo]
        apply lex_append_left
        rcases hlt3 with hd | ⟨hd, hlt4⟩
        · exact lex_append_congr _ _ _ _ (by simp [padDigits_length])
            (padDigits_lt_padDigits 2 _ _ hd1 hd2 hd)
        · rw [hd]
          apply lex_append_left
          apply lex_append_left
          rcases hlt4 with hh | ⟨hh, hlt5⟩
          · exact lex_append_congr _ _ _ _ (by simp [padDigits_length])
              (padDigits_lt_padDigits 2 _ _ hh1 hh2 hh)
          · rw [hh]
            apply lex_append_left
            rcases hlt5 with hmi | ⟨hmi, hs⟩
            · exact lex_append_congr _ _ _ _ (by simp [padDigits_length])
                (padDigits_lt_padDigits 2 _ _ hmi1 hmi2 hmi)
            · rw [hmi]
              apply lex_append_left
              exact lex_append_congr _ _ _ _ (by simp [padDigits_length])
                (padDigits_lt_padDigits 2 _ _ hs1 hs2 hs)
  exact ⟨ne_of_lt key, key⟩

/-- Witness for C6 amended: one second apart, one second later. -/
theorem restart_strictly_later_new_name_witness :
    inRange ⟨2024, 1, 2, 3, 4, 5⟩ ∧ inRange ⟨2024, 1, 2, 3, 4, 6⟩ ∧
      chronoLt ⟨2024, 1, 2, 3, 4, 5⟩ ⟨2024, 1, 2, 3, 4, 6⟩ ∧
      (recordingFilename ⟨2024, 1, 2, 3, 4, 5⟩ ≠ recordingFilename ⟨2024, 1, 2, 3, 4, 6⟩ ∧
        recordingFilename ⟨2024, 1, 2, 3, 4, 5⟩ < recordingFilename ⟨2024, 1, 2, 3, 4, 6⟩) :=
  ⟨by unfold inRange; decide, by unfold inRange; decide, by unfold chronoLt; decide,
    restart_strictly_later_new_name ⟨2024, 1, 2, 3, 4, 5⟩ ⟨2024, 1, 2, 3, 4, 6⟩
      (by unfold inRange; decide) (by unfold inRange; decide) (by unfold chronoLt; decide)⟩

/-- C10: while recording with a writer present, a degraded sentinel
sample is appended to the sink exactly like a valid one — a data row
whose three numeric columns are all -1; nothing filters it out. -/
theorem sentinel_rows_recorded (ts s : String) (st : GuiState)
    (p : String) (rows : List Row)
    (hrec : st.recording = true) (hw : st.csvWriterSet = true)
    (hf : st.csvFile = some ⟨p, rows⟩) :
    (updateDisplay ts ⟨s, -1, -1, -1⟩ st).csvFile =
      some ⟨p, rows ++ [dataRow ts ⟨s, -1, -1, -1⟩]⟩ ∧
    dataRow ts ⟨s, -1, -1, -1⟩ =
      [Sum.inl ts, Sum.inr (-1), Sum.inr (-1), Sum.inr (-1)] :=
  ⟨updateDisplay_csvFile_rec ts ⟨s, -1, -1, -1⟩ st p rows hrec hw hf, rfl⟩

/-- Witness for C10 at a concrete recording state. -/
theorem sentinel_rows_recorded_witness :
    (updateDisplay "2024-01-02 03:04:05" ⟨"ERR", -1, -1, -1⟩
        { initState none with
            recording := true
            csvWriterSet := true
            csvFile := some ⟨"f", [headerRow]⟩ }).csvFile =
      some ⟨"f", [headerRow] ++ [dataRow "2024-01-02 03:04:05" ⟨"ERR", -1, -1, -1⟩]⟩ ∧
    dataRow "2024-01-02 03:04:05" (⟨"ERR", -1, -1, -1⟩ : Sample) =
      [Sum.inl "2024-01-02 03:04:05", Sum.inr (-1), Sum.inr (-1), Sum.inr (-1)] :=
  sentinel_rows_recorded "2024-01-02 03:04:05" "ERR"
    { initState none with
        recording := true
        csvWriterSet := true
        csvFile := some ⟨"f", [headerRow]⟩ } "f" [headerRow] rfl rfl rfl

end WeatherRecorder
